import Mathlib

/-!
Verification of the wakala-reconciler normalization-and-reconciliation
pipeline (Go sources under internal/currency, internal/ingestion,
internal/reconciliation, internal/repository, internal/domain).

Modelling conventions:
* Go `float64` amounts are modelled as exact rationals (`ℚ`); division is
  Lean's total division on `ℚ`.
* Go `time.Time` instants are modelled as an integer-valued, order-preserving
  abstract encoding (`Time := ℤ`); none of the verified claims depend on the
  concrete encoding of an instant, only on the order of instants and on
  whether a timestamp string parses at all.
* The SQLite-backed repositories are modelled as pure in-memory stores with
  the same query semantics (a `NULL` `wakala_transaction_id` is the empty
  string, matching the Go struct's zero value, and `INSERT OR IGNORE` is
  insert-unless-id-present).
* The human-readable `description` field of a discrepancy (a `fmt.Sprintf`
  of already-modelled data) is omitted from the model; no claim mentions it.
-/

namespace Wakala

/-- Go `float64` money amounts, modelled as exact rationals. -/
abbrev Money := ℚ

/-- Abstract encoding of a `time.Time` instant. -/
abbrev Time := ℤ

/-- `domain.TransactionStatus` (`authorized`, `captured`, `settled`, `failed`). -/
inductive TransactionStatus where
  | authorized
  | captured
  | settled
  | failed
deriving DecidableEq, Repr

/-- `domain.Severity` (`LOW`, `MEDIUM`, `HIGH`, `CRITICAL`). -/
inductive Severity where
  | low
  | medium
  | high
  | critical
deriving DecidableEq, Repr

/-- `domain.DiscrepancyType` (`MISSING_SETTLEMENT`, `AMOUNT_MISMATCH`,
`ORPHANED_SETTLEMENT`). -/
inductive DiscrepancyType where
  | missingSettlement
  | amountMismatch
  | orphanedSettlement
deriving DecidableEq, Repr

/-- `domain.Transaction`. `Processor` is a string type in Go, kept as `String`. -/
structure Transaction where
  id : String
  processorReference : String
  processor : String
  merchantID : String
  customerCountry : String
  merchantCountry : String
  amount : Money
  currency : String
  usdAmount : Money
  status : TransactionStatus
  createdAt : Time
  capturedAt : Option Time
  settledAt : Option Time
deriving DecidableEq, Repr

/-- `domain.SettlementRecord`. An empty `wakalaTransactionID` is the unmatched
state (`NULL` in the database, zero value in Go). -/
structure SettlementRecord where
  id : String
  reportID : String
  processor : String
  processorTransactionID : String
  wakalaTransactionID : String
  grossAmount : Money
  feeAmount : Money
  netAmount : Money
  currency : String
  usdGrossAmount : Money
  usdNetAmount : Money
  settlementDate : Time
  batchID : String
deriving DecidableEq, Repr

/-- `domain.SettlementReport`. -/
structure SettlementReport where
  id : String
  processor : String
  reportDate : Time
  batchID : String
  fileHash : String
  recordCount : Nat
  ingestedAt : Time
deriving DecidableEq, Repr

/-- `domain.Discrepancy` (without the free-text `description`). -/
structure Discrepancy where
  id : String
  type : DiscrepancyType
  transactionID : String
  settlementID : String
  processor : String
  expectedUSD : Money
  actualUSD : Money
  differenceUSD : Money
  currency : String
  severity : Severity
  detectedAt : Time
deriving DecidableEq, Repr

/-! ## Currency normalizer (`internal/currency`) -/

/-- `currency.ratesPerUSD`: units of local currency per 1 USD. -/
def ratesPerUSD (currency : String) : Option ℚ :=
  if currency = "USD" then some 1.0
  else if currency = "KES" then some 129.5
  else if currency = "NGN" then some 1580.0
  else if currency = "ZAR" then some 18.6
  else none

/-- `currency.ToUSD`: divide a local amount by the rate; unknown codes fail. -/
def ToUSD (amount : ℚ) (currency : String) : Except String ℚ :=
  match ratesPerUSD currency with
  | none => .error ("unsupported currency: " ++ currency)
  | some rate => .ok (amount / rate)

/-- `currency.FromUSD`: multiply a USD amount by the rate; unknown codes fail. -/
def FromUSD (usdAmount : ℚ) (currency : String) : Except String ℚ :=
  match ratesPerUSD currency with
  | none => .error ("unsupported currency: " ++ currency)
  | some rate => .ok (usdAmount * rate)

/-! ## Reconciliation severity helpers (`internal/reconciliation/service.go`) -/

/-- `reconciliation.severityByAmount`: severity of a missing settlement by the
expected USD amount. -/
def severityByAmount (usdAmount : ℚ) : Severity :=
  if usdAmount > 500 then .high
  else if usdAmount > 100 then .medium
  else .low

/-- `reconciliation.mismatchSeverity`: severity of an amount mismatch from the
relative and absolute USD difference. -/
def mismatchSeverity (pctDiff absDiff : ℚ) : Severity :=
  if absDiff > 500 then .critical
  else if pctDiff > 0.02 then .high
  else .medium

/-- `reconciliation.calculateConfidence`: match confidence from the relative
USD gross difference (observability only). -/
def calculateConfidence (txn : Transaction) (rec : SettlementRecord) : ℚ :=
  if txn.usdAmount = 0 then 0.5
  else
    let pctDiff := |txn.usdAmount - rec.usdGrossAmount| / txn.usdAmount
    if pctDiff ≤ 0.001 then 1.0
    else if pctDiff ≤ 0.01 then 0.95
    else if pctDiff ≤ 0.02 then 0.90
    else if pctDiff ≤ 0.05 then 0.80
    else 0.60

/-! ## Repository model (`internal/repository`)

The SQLite tables, modelled as in-memory lists with the same query
behaviour. -/

/-- The persistent state behind the transaction, settlement and discrepancy
repositories. -/
structure Store where
  reports : List SettlementReport
  records : List SettlementRecord
  transactions : List Transaction
  discrepancies : List Discrepancy
deriving DecidableEq, Repr

/-- `SettlementRepo.ReportExistsByHash`: is a report with this file hash
already ingested? -/
def reportExistsByHash (s : Store) (hash : String) : Bool :=
  s.reports.any (fun r => r.fileHash = hash)

/-- `SettlementRepo.GetUnmatchedRecords`: records whose
`wakala_transaction_id` is NULL (empty string in the Go struct). -/
def getUnmatchedRecords (s : Store) : List SettlementRecord :=
  s.records.filter (fun r => r.wakalaTransactionID = "")

/-- `SettlementRepo.GetMatchedRecords`: records whose
`wakala_transaction_id` is set. -/
def getMatchedRecords (s : Store) : List SettlementRecord :=
  s.records.filter (fun r => r.wakalaTransactionID ≠ "")

/-- `TransactionRepo.GetByID`: the first transaction with this id. -/
def getByID (s : Store) (id : String) : Option Transaction :=
  s.transactions.find? (fun t => t.id = id)

/-- `TransactionRepo.GetByProcessorRef`: the first transaction with this
(processor, processor_reference) pair. -/
def getByProcessorRef (s : Store) (processor ref : String) : Option Transaction :=
  s.transactions.find? (fun t => t.processor = processor ∧ t.processorReference = ref)

/-- `SettlementRepo.UpdateWakalaTransactionID`: set the match link on the
record with the given id. -/
def updateWakalaTransactionID (s : Store) (recordID txnID : String) : Store :=
  { s with records := s.records.map (fun r =>
      if r.id = recordID then { r with wakalaTransactionID := txnID } else r) }

/-- `TransactionRepo.UpdateStatusToSettled`: mark a transaction settled at the
given instant. -/
def updateStatusToSettled (s : Store) (txnID : String) (settledAt : Time) : Store :=
  { s with transactions := s.transactions.map (fun t =>
      if t.id = txnID then { t with status := .settled, settledAt := some settledAt } else t) }

/-- `TransactionRepo.GetCapturedWithoutSettlement`: captured transactions with
`captured_at` before the cutoff and no settlement record linked to them. -/
def getCapturedWithoutSettlement (s : Store) (cutoff : Time) : List Transaction :=
  s.transactions.filter (fun t =>
    decide (t.status = TransactionStatus.captured) &&
    (match t.capturedAt with
     | some c => decide (c < cutoff)
     | none => false) &&
    !(s.records.any (fun r => r.wakalaTransactionID = t.id)))

/-- `DiscrepancyRepo.ClearAll`: delete every discrepancy. -/
def clearAll (s : Store) : Store :=
  { s with discrepancies := [] }

/-- `SettlementRepo.InsertReport`: plain insert of the report row. -/
def insertReport (s : Store) (rpt : SettlementReport) : Store :=
  { s with reports := s.reports ++ [rpt] }

/-- `SettlementRepo.InsertRecords`: `INSERT OR IGNORE` keyed by record id,
returning how many rows were actually inserted. -/
def insertRecords : Store → List SettlementRecord → Store × Nat
  | s, [] => (s, 0)
  | s, rec :: rest =>
    if s.records.any (fun r => r.id = rec.id) then insertRecords s rest
    else
      let res := insertRecords { s with records := s.records ++ [rec] } rest
      (res.1, res.2 + 1)

/-- `DiscrepancyRepo.BulkInsert`: `INSERT OR IGNORE` keyed by discrepancy id,
returning how many rows were actually inserted. -/
def bulkInsertDiscs : Store → List Discrepancy → Store × Nat
  | s, [] => (s, 0)
  | s, d :: rest =>
    if s.discrepancies.any (fun d0 => d0.id = d.id) then bulkInsertDiscs s rest
    else
      let res := bulkInsertDiscs { s with discrepancies := s.discrepancies ++ [d] } rest
      (res.1, res.2 + 1)

/-! ## Reconciliation engine (`internal/reconciliation/service.go`) -/

/-- `reconciliation.ReconciliationResult`. -/
structure ReconciliationResult where
  matchedCount : Nat
  missingSettlements : Nat
  amountMismatches : Nat
  orphanedSettlements : Nat
  totalDiscrepancies : Nat
deriving DecidableEq, Repr

/-- One iteration of the `MatchSettlements` loop: look up the transaction by
(processor, processor_reference); on a hit link the settlement record, mark
the transaction settled and count the match. -/
def matchStep (acc : Store × Nat) (rec : SettlementRecord) : Store × Nat :=
  match getByProcessorRef acc.1 rec.processor rec.processorTransactionID with
  | none => acc
  | some txn =>
    (updateStatusToSettled
        (updateWakalaTransactionID acc.1 rec.id txn.id) txn.id rec.settlementDate,
      acc.2 + 1)

/-- `Service.MatchSettlements`: iterate the match loop over the snapshot of
currently unmatched records. -/
def matchSettlements (s : Store) : Store × Nat :=
  (getUnmatchedRecords s).foldl matchStep (s, 0)

/-- The MISSING_SETTLEMENT discrepancy synthesized for one overdue captured
transaction. -/
def mkMissingDisc (now : Time) (txn : Transaction) : Discrepancy :=
  { id := "DISC-MS-" ++ txn.id
    type := .missingSettlement
    transactionID := txn.id
    settlementID := ""
    processor := txn.processor
    expectedUSD := txn.usdAmount
    actualUSD := 0
    differenceUSD := txn.usdAmount
    currency := txn.currency
    severity := severityByAmount txn.usdAmount
    detectedAt := now }

/-- `Service.DetectMissingSettlements` with the settlement window passed
explicitly (the Go code reads it from `SETTLEMENT_WINDOW_HOURS`, default
48h). -/
def detectMissingSettlements (s : Store) (now window : Time) : Store × Nat :=
  let discs := (getCapturedWithoutSettlement s (now - window)).map (mkMissingDisc now)
  if discs = [] then (s, 0) else bulkInsertDiscs s discs

/-- One iteration of the `DetectAmountMismatches` loop: compare the record's
gross USD amount against the linked transaction's USD amount; `none` when the
lookup fails or a tolerance gate suppresses the discrepancy. -/
def mismatchCheck (s : Store) (now : Time) (rec : SettlementRecord) : Option Discrepancy :=
  match getByID s rec.wakalaTransactionID with
  | none => none
  | some txn =>
    if txn.usdAmount > 0 ∧
        |rec.usdGrossAmount - txn.usdAmount| / txn.usdAmount ≤ 0.005 then none
    else if |rec.usdGrossAmount - txn.usdAmount| < 0.10 then none
    else some {
      id := "DISC-AM-" ++ rec.id
      type := .amountMismatch
      transactionID := txn.id
      settlementID := rec.id
      processor := rec.processor
      expectedUSD := txn.usdAmount
      actualUSD := rec.usdGrossAmount
      differenceUSD := rec.usdGrossAmount - txn.usdAmount
      currency := rec.currency
      severity := mismatchSeverity (|rec.usdGrossAmount - txn.usdAmount| / txn.usdAmount)
        |rec.usdGrossAmount - txn.usdAmount|
      detectedAt := now }

/-- The AMOUNT_MISMATCH discrepancies collected over all matched records. -/
def amountMismatchDiscs (s : Store) (now : Time) : List Discrepancy :=
  (getMatchedRecords s).filterMap (mismatchCheck s now)

/-- `Service.DetectAmountMismatches`. -/
def detectAmountMismatches (s : Store) (now : Time) : Store × Nat :=
  let discs := amountMismatchDiscs s now
  if discs = [] then (s, 0) else bulkInsertDiscs s discs

/-- The ORPHANED_SETTLEMENT discrepancy synthesized for one unmatched
settlement record. -/
def mkOrphanDisc (now : Time) (rec : SettlementRecord) : Discrepancy :=
  { id := "DISC-OS-" ++ rec.id
    type := .orphanedSettlement
    transactionID := ""
    settlementID := rec.id
    processor := rec.processor
    expectedUSD := 0
    actualUSD := rec.usdNetAmount
    differenceUSD := rec.usdNetAmount
    currency := rec.currency
    severity := .high
    detectedAt := now }

/-- The ORPHANED_SETTLEMENT discrepancies collected over all records still
unmatched. -/
def orphanedDiscs (s : Store) (now : Time) : List Discrepancy :=
  (getUnmatchedRecords s).map (mkOrphanDisc now)

/-- `Service.DetectOrphanedSettlements`. -/
def detectOrphanedSettlements (s : Store) (now : Time) : Store × Nat :=
  let discs := orphanedDiscs s now
  if discs = [] then (s, 0) else bulkInsertDiscs s discs

/-- `Service.RunFullReconciliation`: clear, match, then the three detectors,
in order; the total is the sum of the three detector counts. -/
def runFullReconciliation (s : Store) (now window : Time) : Store × ReconciliationResult :=
  let s1 := clearAll s
  let m := matchSettlements s1
  let ms := detectMissingSettlements m.1 now window
  let am := detectAmountMismatches ms.1 now
  let orp := detectOrphanedSettlements am.1 now
  (orp.1,
    { matchedCount := m.2
      missingSettlements := ms.2
      amountMismatches := am.2
      orphanedSettlements := orp.2
      totalDiscrepancies := ms.2 + am.2 + orp.2 })

/-! ## Field parsing (models of `strconv.ParseFloat` and `time.Parse`) -/

/-- Model of Go `strings.TrimSpace`: drop whitespace from both ends. -/
def trimSpace (s : String) : String :=
  ⟨((s.data.dropWhile Char.isWhitespace).reverse.dropWhile Char.isWhitespace).reverse⟩

/-- Consume leading decimal digits: their value, how many there were, and the
rest of the input. -/
def takeDigits : List Char → Nat × Nat × List Char
  | [] => (0, 0, [])
  | c :: rest =>
    if c.isDigit then
      let r := takeDigits rest
      ((c.toNat - 48) * 10 ^ r.2.1 + r.1, r.2.1 + 1, r.2.2)
    else (0, 0, c :: rest)

/-- The exponent suffix of a decimal float: optional sign, at least one
digit, nothing after. -/
def applyExponent (mant : ℚ) (cs : List Char) : Option ℚ :=
  let sgn : Int × List Char :=
    match cs with
    | '-' :: r => (-1, r)
    | '+' :: r => (1, r)
    | _ => (1, cs)
  let ev := takeDigits sgn.2
  if ev.2.1 = 0 then none
  else if ev.2.2 ≠ [] then none
  else some (mant * (10 : ℚ) ^ (sgn.1 * ev.1))

/-- Model of Go `strconv.ParseFloat` on the plain decimal syntax: optional
sign, digits with an optional fractional part (at least one digit overall),
optional exponent. The special forms (inf, nan, hex floats) never occur in
settlement data and are not modelled. -/
def parseFloat? (s : String) : Option ℚ :=
  let sgn : ℚ × List Char :=
    match s.data with
    | '-' :: r => (-1, r)
    | '+' :: r => (1, r)
    | _ => (1, s.data)
  let ip := takeDigits sgn.2
  let dotted : Bool × List Char :=
    match ip.2.2 with
    | '.' :: r => (true, r)
    | _ => (false, ip.2.2)
  let fp := if dotted.1 then takeDigits dotted.2 else (0, 0, dotted.2)
  if ip.2.1 = 0 ∧ fp.2.1 = 0 then none
  else
    let mant : ℚ := sgn.1 * ((ip.1 : ℚ) + (fp.1 : ℚ) / 10 ^ fp.2.1)
    match fp.2.2 with
    | [] => some mant
    | 'e' :: r => applyExponent mant r
    | 'E' :: r => applyExponent mant r
    | _ => none

/-- Gregorian leap year. -/
def isLeapYear (y : Nat) : Bool :=
  (y % 4 = 0 && y % 100 ≠ 0) || y % 400 = 0

/-- Days in a month (Go `time.Parse` validates the day of month). -/
def daysInMonth (y m : Nat) : Nat :=
  if m = 2 then (if isLeapYear y then 29 else 28)
  else if m = 4 ∨ m = 6 ∨ m = 9 ∨ m = 11 then 30
  else 31

/-- Order-preserving integer encoding of a civil date-time with a UTC offset
in minutes. The verified claims depend only on whether a timestamp string
parses, never on the encoded value of an instant. -/
def encodeDateTime (y m d hh mi ss : Nat) (offsetMinutes : Int) : Time :=
  ((((((y : Int) * 12 + ((m : Int) - 1)) * 31 + ((d : Int) - 1)) * 24 + hh) * 60 + mi) * 60
      + ss)
    - offsetMinutes * 60

/-- Go `time.Parse` with layout `2006-01-02`: strict `YYYY-MM-DD` with month
and day range validation. -/
def parseDateOnly? (s : String) : Option Time :=
  match s.data with
  | [y1, y2, y3, y4, '-', m1, m2, '-', d1, d2] =>
    if [y1, y2, y3, y4, m1, m2, d1, d2].all Char.isDigit then
      let y := ((y1.toNat - 48) * 10 + (y2.toNat - 48)) * 100 +
        ((y3.toNat - 48) * 10 + (y4.toNat - 48))
      let m := (m1.toNat - 48) * 10 + (m2.toNat - 48)
      let d := (d1.toNat - 48) * 10 + (d2.toNat - 48)
      if 1 ≤ m ∧ m ≤ 12 ∧ 1 ≤ d ∧ d ≤ daysInMonth y m then
        some (encodeDateTime y m d 0 0 0 0)
      else none
    else none
  | _ => none

/-- The timezone suffix of an RFC 3339 timestamp: `Z` or `±HH:MM`, as an
offset in minutes. -/
def parseZone? : List Char → Option Int
  | ['Z'] => some 0
  | [sgn, h1, h2, ':', m1, m2] =>
    if (sgn = '+' ∨ sgn = '-') ∧ [h1, h2, m1, m2].all Char.isDigit then
      let hh := (h1.toNat - 48) * 10 + (h2.toNat - 48)
      let mm := (m1.toNat - 48) * 10 + (m2.toNat - 48)
      if hh ≤ 23 ∧ mm ≤ 59 then
        some ((if sgn = '-' then -1 else 1) * ((hh : Int) * 60 + mm))
      else none
    else none
  | _ => none

/-- Go `time.Parse` with the RFC 3339 layout `2006-01-02T15:04:05Z07:00`
(fractional seconds not modelled). -/
def parseRFC3339? (s : String) : Option Time :=
  match s.data with
  | y1 :: y2 :: y3 :: y4 :: '-' :: m1 :: m2 :: '-' :: d1 :: d2 :: 'T' ::
      h1 :: h2 :: ':' :: mi1 :: mi2 :: ':' :: s1 :: s2 :: zone =>
    if [y1, y2, y3, y4, m1, m2, d1, d2, h1, h2, mi1, mi2, s1, s2].all Char.isDigit then
      let y := ((y1.toNat - 48) * 10 + (y2.toNat - 48)) * 100 +
        ((y3.toNat - 48) * 10 + (y4.toNat - 48))
      let m := (m1.toNat - 48) * 10 + (m2.toNat - 48)
      let d := (d1.toNat - 48) * 10 + (d2.toNat - 48)
      let hh := (h1.toNat - 48) * 10 + (h2.toNat - 48)
      let mi := (mi1.toNat - 48) * 10 + (mi2.toNat - 48)
      let ss := (s1.toNat - 48) * 10 + (s2.toNat - 48)
      if 1 ≤ m ∧ m ≤ 12 ∧ 1 ≤ d ∧ d ≤ daysInMonth y m ∧ hh ≤ 23 ∧ mi ≤ 59 ∧ ss ≤ 59 then
        match parseZone? zone with
        | some off => some (encodeDateTime y m d hh mi ss off)
        | none => none
      else none
    else none
  | _ => none

/-- The CSV parsers' date handling: the primary layout `2006-01-02`, then the
RFC 3339 fallback. -/
def parseDateWithFallback (s : String) : Option Time :=
  match parseDateOnly? s with
  | some t => some t
  | none => parseRFC3339? s

/-! ## Format parsers (`internal/ingestion/parser_csv_*.go`)

Both CSV parsers are modelled over the sequence of records the Go
`csv.Reader` lexes (a header record followed by data records, each a list of
fields); delimiter handling (comma vs pipe, `TrimLeadingSpace`, quoting) and
blank-line skipping live below that interface. The reader's field-count
enforcement is modelled: with the default `FieldsPerRecord = 0` the first
record read (the header) fixes the expected field count `n`, and every later
`Read` whose record has a different field count fails with `ErrFieldCount` —
an error both parsers treat as fatal (`err != io.EOF` aborts the parse).
Only after a record passes the reader do the parsers run their own
`len(row) < 7` skip branch, which the enforcement therefore makes dead. -/

/-- The per-row loop of `ParseCapePayCSV`. `expectedFields` is the field
count fixed by the header (the reader's `FieldsPerRecord`); the first branch
is the reader's `ErrFieldCount` error, which the parser treats as fatal, and
the second is the parser's own silent-skip branch for short rows (dead once
the reader enforces the count). `lineNum` is the 1-based line number of the
first row still to process (the first data row is line 2). -/
def capePayRows (reportID : String) (expectedFields : Nat) :
    List (List String) → Nat → List SettlementRecord → String →
    Except String (List SettlementRecord × String)
  | [], _, acc, batchID => .ok (acc, batchID)
  | row :: rest, lineNum, acc, batchID =>
    if row.length ≠ expectedFields then
      .error ("line " ++ toString lineNum ++ ": wrong number of fields")
    else if row.length < 7 then
      capePayRows reportID expectedFields rest (lineNum + 1) acc batchID
    else
      match parseFloat? (trimSpace (row.getD 3 "")) with
      | none => .error ("line " ++ toString lineNum ++ " amount")
      | some amount =>
        match parseFloat? (trimSpace (row.getD 4 "")) with
        | none => .error ("line " ++ toString lineNum ++ " deductions")
        | some deductions =>
          match parseFloat? (trimSpace (row.getD 5 "")) with
          | none => .error ("line " ++ toString lineNum ++ " net")
          | some net =>
            match parseDateWithFallback (trimSpace (row.getD 2 "")) with
            | none => .error ("line " ++ toString lineNum ++ " date")
            | some settleDate =>
              match ToUSD amount "ZAR" with
              | .error e => .error ("line " ++ toString lineNum ++ " currency gross: " ++ e)
              | .ok usdGross =>
                match ToUSD net "ZAR" with
                | .error e => .error ("line " ++ toString lineNum ++ " currency net: " ++ e)
                | .ok usdNet =>
                  capePayRows reportID expectedFields rest (lineNum + 1)
                    (acc ++ [{
                      id := "SR-CP-" ++ trimSpace (row.getD 0 "") ++ "-" ++ toString lineNum
                      reportID := reportID
                      processor := "capepay"
                      processorTransactionID := trimSpace (row.getD 0 "")
                      wakalaTransactionID := ""
                      grossAmount := amount
                      feeAmount := deductions
                      netAmount := net
                      currency := "ZAR"
                      usdGrossAmount := usdGross
                      usdNetAmount := usdNet
                      settlementDate := settleDate
                      batchID := trimSpace (row.getD 6 "") }])
                    (trimSpace (row.getD 6 ""))

/-- `ingestion.ParseCapePayCSV` (pipe-delimited CapePay format): the header
record fixes the reader's expected field count and is validated for at least
7 columns, then the row loop runs from line 2. -/
def ParseCapePayCSV (rows : List (List String)) (reportID : String) :
    Except String (List SettlementRecord × String) :=
  match rows with
  | [] => .error "read header"
  | header :: dataRows =>
    if header.length < 7 then
      .error ("expected 7 columns, got " ++ toString header.length)
    else capePayRows reportID header.length dataRows 2 [] ""

/-- The per-row loop of `ParseAfriPayCSV`; same structure as the CapePay loop
(reader field-count enforcement first, then the parser's dead skip branch)
with AfriPay field names, currency KES and record-id prefix SR-AP. -/
def afriPayRows (reportID : String) (expectedFields : Nat) :
    List (List String) → Nat → List SettlementRecord → String →
    Except String (List SettlementRecord × String)
  | [], _, acc, batchID => .ok (acc, batchID)
  | row :: rest, lineNum, acc, batchID =>
    if row.length ≠ expectedFields then
      .error ("line " ++ toString lineNum ++ ": wrong number of fields")
    else if row.length < 7 then
      afriPayRows reportID expectedFields rest (lineNum + 1) acc batchID
    else
      match parseFloat? (trimSpace (row.getD 3 "")) with
      | none => .error ("line " ++ toString lineNum ++ " gross")
      | some gross =>
        match parseFloat? (trimSpace (row.getD 4 "")) with
        | none => .error ("line " ++ toString lineNum ++ " fee")
        | some fee =>
          match parseFloat? (trimSpace (row.getD 5 "")) with
          | none => .error ("line " ++ toString lineNum ++ " net")
          | some net =>
            match parseDateWithFallback (trimSpace (row.getD 2 "")) with
            | none => .error ("line " ++ toString lineNum ++ " date")
            | some settleDate =>
              match ToUSD gross "KES" with
              | .error e => .error ("line " ++ toString lineNum ++ " currency gross: " ++ e)
              | .ok usdGross =>
                match ToUSD net "KES" with
                | .error e => .error ("line " ++ toString lineNum ++ " currency net: " ++ e)
                | .ok usdNet =>
                  afriPayRows reportID expectedFields rest (lineNum + 1)
                    (acc ++ [{
                      id := "SR-AP-" ++ trimSpace (row.getD 0 "") ++ "-" ++ toString lineNum
                      reportID := reportID
                      processor := "afripay"
                      processorTransactionID := trimSpace (row.getD 0 "")
                      wakalaTransactionID := ""
                      grossAmount := gross
                      feeAmount := fee
                      netAmount := net
                      currency := "KES"
                      usdGrossAmount := usdGross
                      usdNetAmount := usdNet
                      settlementDate := settleDate
                      batchID := trimSpace (row.getD 6 "") }])
                    (trimSpace (row.getD 6 ""))

/-- `ingestion.ParseAfriPayCSV` (comma CSV AfriPay format): the header fixes
the reader's expected field count, then the row loop runs from line 2. -/
def ParseAfriPayCSV (rows : List (List String)) (reportID : String) :
    Except String (List SettlementRecord × String) :=
  match rows with
  | [] => .error "read header"
  | header :: dataRows =>
    if header.length < 7 then
      .error ("expected 7 columns, got " ++ toString header.length)
    else afriPayRows reportID header.length dataRows 2 [] ""

/-- A data row with enough fields whose numeric or date field does not parse
(the parsers must abort the whole file on such a row). -/
def rowBad (row : List String) : Prop :=
  7 ≤ row.length ∧
  (parseFloat? (trimSpace (row.getD 3 "")) = none ∨
   parseFloat? (trimSpace (row.getD 4 "")) = none ∨
   parseFloat? (trimSpace (row.getD 5 "")) = none ∨
   parseDateWithFallback (trimSpace (row.getD 2 "")) = none)

instance (row : List String) : Decidable (rowBad row) := by
  unfold rowBad
  infer_instance

/-! ## Ingestion orchestrator (`internal/ingestion`) -/

/-- `ingestion.IngestResult`. -/
structure IngestResult where
  reportID : String
  recordsIngested : Nat
  duplicatesSkipped : Nat
  discrepanciesDetected : Nat
deriving DecidableEq, Repr

/-- The sentinel result returned when the report content was already ingested
(the untouched fields are Go zero values). -/
def alreadyIngestedResult : IngestResult :=
  { reportID := "already-ingested", recordsIngested := 0,
    duplicatesSkipped := 0, discrepanciesDetected := 0 }

/-- A settlement-report parser as the ingestion service consumes one: raw
bytes and a report id to canonical records plus a batch id, or a parse
error. -/
abbrev ParserFn := List Nat → String → Except String (List SettlementRecord × String)

/-- The `switch format` dispatch of `IngestReport`: tags `csv_a`, `json_b`,
`csv_c` select a parser; anything else is unsupported. -/
def dispatchParser (parseA parseB parseC : ParserFn) (format : String) : Option ParserFn :=
  if format = "csv_a" then some parseA
  else if format = "json_b" then some parseB
  else if format = "csv_c" then some parseC
  else none

/-- The report id `RPT-<processor>-<timestamp>` minted for a new ingestion. -/
def mkReportID (processor : String) (now : Time) : String :=
  "RPT-" ++ processor ++ "-" ++ toString now

/-- The `BATCH-<timestamp>` fallback when the parsed batch id is empty. -/
def resolveBatchID (now : Time) (batchID : String) : String :=
  if batchID = "" then "BATCH-" ++ toString now else batchID

/-- The report metadata row persisted for a newly ingested file. -/
def mkReport (processor : String) (now : Time) (batchID hash : String)
    (recordCount : Nat) : SettlementReport :=
  { id := mkReportID processor now
    processor := processor
    reportDate := now
    batchID := batchID
    fileHash := hash
    recordCount := recordCount
    ingestedAt := now }

/-- The persistence step of `IngestReport`: insert the report row, then
insert-or-ignore the parsed records, returning the new store and the count of
newly inserted records. -/
def persistReportAndRecords (s : Store) (processor : String) (now : Time)
    (batchID hash : String) (records : List SettlementRecord) : Store × Nat :=
  insertRecords
    (insertReport s (mkReport processor now (resolveBatchID now batchID) hash records.length))
    records

/-- `ingestion.Service.IngestReport`. The SHA-256 content digest, the three
format parsers and the reconciliation pass are the service's injected
collaborators, passed as functions; `recon` returns `none` when the
reconciliation run fails, in which case the ingestion call still succeeds and
reports zero discrepancies. -/
def IngestReport (hashHex : List Nat → String) (parseA parseB parseC : ParserFn)
    (recon : Store → Option (Store × ReconciliationResult))
    (s : Store) (now : Time) (data : List Nat) (processor format : String) :
    Store × Except String IngestResult :=
  if reportExistsByHash s (hashHex data) then (s, .ok alreadyIngestedResult)
  else
    match dispatchParser parseA parseB parseC format with
    | none => (s, .error ("unsupported format: " ++ format))
    | some parse =>
      match parse data (mkReportID processor now) with
      | .error e => (s, .error ("parse " ++ format ++ ": " ++ e))
      | .ok (records, batchID) =>
        let ins := persistReportAndRecords s processor now batchID (hashHex data) records
        match recon ins.1 with
        | none =>
          (ins.1, .ok { reportID := mkReportID processor now
                        recordsIngested := ins.2
                        duplicatesSkipped := records.length - ins.2
                        discrepanciesDetected := 0 })
        | some sr =>
          (sr.1, .ok { reportID := mkReportID processor now
                       recordsIngested := ins.2
                       duplicatesSkipped := records.length - ins.2
                       discrepanciesDetected := sr.2.totalDiscrepancies })

/-- The reconciliation collaborator as wired in production: a full
reconciliation run at the given instant and settlement window (the pure model
of the store cannot fail). -/
def runReconOn (now window : Time) : Store → Option (Store × ReconciliationResult) :=
  fun s => some (runFullReconciliation s now window)

/-! ## Fixtures used by the witness theorems -/

/-- A parser that accepts any input as an empty report with batch id B-1. -/
def parserOkEmpty : ParserFn := fun _ _ => .ok ([], "B-1")

/-- The store left by ingesting bytes with digest h into an empty store via
`parserOkEmpty` at instant 0. -/
def storeAfterFirstIngest : Store :=
  { reports := [mkReport "p" 0 "B-1" "h" 0]
    records := []
    transactions := []
    discrepancies := [] }

/-- A transaction fixture: 100 USD, captured, reference R-1 at afripay. -/
def txn100 : Transaction :=
  { id := "T-1"
    processorReference := "R-1"
    processor := "afripay"
    merchantID := "M-1"
    customerCountry := "KE"
    merchantCountry := "KE"
    amount := 12950
    currency := "KES"
    usdAmount := 100
    status := .captured
    createdAt := 0
    capturedAt := some 0
    settledAt := none }

/-- A settlement record fixture matched to `txn100` with gross 110 USD. -/
def rec110 : SettlementRecord :=
  { id := "SR-1"
    reportID := "RPT-1"
    processor := "afripay"
    processorTransactionID := "R-1"
    wakalaTransactionID := "T-1"
    grossAmount := 14245
    feeAmount := 145
    netAmount := 14100
    currency := "KES"
    usdGrossAmount := 110
    usdNetAmount := 108
    settlementDate := 5
    batchID := "B-1"
  }

/-- A settlement record fixture that no transaction matches (orphaned). -/
def recOrphan : SettlementRecord :=
  { id := "SR-2"
    reportID := "RPT-1"
    processor := "afripay"
    processorTransactionID := "R-404"
    wakalaTransactionID := ""
    grossAmount := 2590
    feeAmount := 52
    netAmount := 2538
    currency := "KES"
    usdGrossAmount := 20
    usdNetAmount := 19
    settlementDate := 5
    batchID := "B-1"
  }

/-- A store holding `txn100`, the matched record `rec110` and the unmatched
record `recOrphan`. -/
def storeMixed : Store :=
  { reports := []
    records := [rec110, recOrphan]
    transactions := [txn100]
    discrepancies := [] }

/-! ## Theorems for the severity and currency claims -/

/-- Claim C9: `ToUSD` and `FromUSD` fail with an unsupported-currency error
exactly for codes outside {USD, KES, NGN, ZAR}; on supported codes they divide
(resp. multiply) by the fixed rate 1.0 / 129.5 / 1580.0 / 18.6. -/
theorem currency_conversion_spec (a : ℚ) (c : String) :
    (c = "USD" → ToUSD a c = .ok (a / 1.0) ∧ FromUSD a c = .ok (a * 1.0)) ∧
    (c = "KES" → ToUSD a c = .ok (a / 129.5) ∧ FromUSD a c = .ok (a * 129.5)) ∧
    (c = "NGN" → ToUSD a c = .ok (a / 1580.0) ∧ FromUSD a c = .ok (a * 1580.0)) ∧
    (c = "ZAR" → ToUSD a c = .ok (a / 18.6) ∧ FromUSD a c = .ok (a * 18.6)) ∧
    (c ≠ "USD" ∧ c ≠ "KES" ∧ c ≠ "NGN" ∧ c ≠ "ZAR" →
      ToUSD a c = .error ("unsupported currency: " ++ c) ∧
      FromUSD a c = .error ("unsupported currency: " ++ c)) := by
  refine ⟨?_, ?_, ?_, ?_, ?_⟩
  · rintro rfl; exact ⟨rfl, rfl⟩
  · rintro rfl; exact ⟨rfl, rfl⟩
  · rintro rfl; exact ⟨rfl, rfl⟩
  · rintro rfl; exact ⟨rfl, rfl⟩
  · rintro ⟨h1, h2, h3, h4⟩
    simp [ToUSD, FromUSD, ratesPerUSD, h1, h2, h3, h4]

/-- Claim C2, counterexample: the code classifies an absolute difference of
exactly 500.00 USD by the relative gate, not as CRITICAL (`absDiff > 500` is
strict). Concretely, at relative difference 50% and absolute difference 500
the assigned severity is HIGH, not CRITICAL. -/
theorem mismatchSeverity_at_500_not_critical :
    mismatchSeverity 0.5 500 = Severity.high ∧
    mismatchSeverity 0.5 500 ≠ Severity.critical := by
  have h : mismatchSeverity 0.5 500 = Severity.high := by
    norm_num [mismatchSeverity]
  exact ⟨h, by rw [h]; intro hc; cases hc⟩

/-- Claim C2 (amended): CRITICAL requires an absolute difference strictly
greater than 500 USD; at exactly 500.00 the severity falls through to the
relative gate (HIGH iff the relative difference exceeds 2%, else MEDIUM);
499.99 with relative difference 2.1% is HIGH; relative difference 1.9% with
absolute difference at most 500 is MEDIUM. -/
theorem mismatchSeverity_boundaries (pct abs : ℚ) :
    (abs = 500 →
      mismatchSeverity pct abs = (if pct > 0.02 then Severity.high else Severity.medium)) ∧
    mismatchSeverity 0.021 499.99 = Severity.high ∧
    (pct = 0.019 → abs ≤ 500 → mismatchSeverity pct abs = Severity.medium) := by
  refine ⟨?_, ?_, ?_⟩
  · rintro rfl
    simp only [mismatchSeverity]
    norm_num
  · norm_num [mismatchSeverity]
  · rintro rfl habs
    simp only [mismatchSeverity]
    rw [if_neg (by exact not_lt.mpr habs), if_neg (by norm_num)]

/-- Claim C3, counterexample: a missing settlement for a transaction of
exactly 100.00 USD is classified LOW, not MEDIUM (`usdAmount > 100` is
strict). -/
theorem severityByAmount_at_100_is_low :
    severityByAmount 100 = Severity.low ∧
    severityByAmount 100 ≠ Severity.medium := by
  have h : severityByAmount 100 = Severity.low := by
    norm_num [severityByAmount]
  exact ⟨h, by rw [h]; intro hc; cases hc⟩

/-- Claim C3 (amended): missing-settlement severity by USD amount is
500.01 → HIGH, 500.00 → MEDIUM, 100.00 → LOW (MEDIUM requires strictly more
than 100), 99.99 → LOW. -/
theorem severityByAmount_boundaries :
    severityByAmount 500.01 = Severity.high ∧
    severityByAmount 500 = Severity.medium ∧
    severityByAmount 100 = Severity.low ∧
    severityByAmount 99.99 = Severity.low := by
  refine ⟨?_, ?_, ?_, ?_⟩ <;> norm_num [severityByAmount]

/-- Claim C5: after a full reconciliation run, the missing, mismatch and
orphaned counts sum to the total discrepancy count. -/
theorem reconciliation_conservation (s : Store) (now window : Time) :
    ((runFullReconciliation s now window).2).missingSettlements +
      ((runFullReconciliation s now window).2).amountMismatches +
      ((runFullReconciliation s now window).2).orphanedSettlements =
      ((runFullReconciliation s now window).2).totalDiscrepancies := rfl

/-- Claim C1: for a matched settlement record whose linked transaction has
USD amount X > 0 and gross USD amount Y, an AMOUNT_MISMATCH is emitted iff
|Y − X| ≥ 0.10 and |Y − X| / X > 0.005; the emitted discrepancy carries
expected = X, actual = Y and signed difference Y − X, and lands in the
detector's output. -/
theorem amount_mismatch_tolerance (s : Store) (now : Time)
    (rec : SettlementRecord) (txn : Transaction)
    (hrec : rec ∈ getMatchedRecords s)
    (hget : getByID s rec.wakalaTransactionID = some txn)
    (hpos : 0 < txn.usdAmount) :
    ((mismatchCheck s now rec).isSome ↔
      (0.10 ≤ |rec.usdGrossAmount - txn.usdAmount| ∧
        |rec.usdGrossAmount - txn.usdAmount| / txn.usdAmount > 0.005)) ∧
    (∀ d, mismatchCheck s now rec = some d →
      d ∈ amountMismatchDiscs s now ∧
      d.type = DiscrepancyType.amountMismatch ∧
      d.expectedUSD = txn.usdAmount ∧
      d.actualUSD = rec.usdGrossAmount ∧
      d.differenceUSD = rec.usdGrossAmount - txn.usdAmount) := by
  by_cases h1 : |rec.usdGrossAmount - txn.usdAmount| / txn.usdAmount ≤ 0.005
  · have hmc : mismatchCheck s now rec = none := by
      simp [mismatchCheck, hget, h1, hpos]
    constructor
    · rw [hmc]
      simp only [Option.isSome_none, Bool.false_eq_true, false_iff, not_and]
      intro _ hgt
      exact absurd hgt (not_lt.mpr h1)
    · intro d hd
      rw [hmc] at hd
      cases hd
  · by_cases h2 : |rec.usdGrossAmount - txn.usdAmount| < 0.10
    · have hmc : mismatchCheck s now rec = none := by
        simp [mismatchCheck, hget, h1, h2]
      constructor
      · rw [hmc]
        simp only [Option.isSome_none, Bool.false_eq_true, false_iff, not_and]
        intro hge _
        exact absurd h2 (not_lt.mpr hge)
      · intro d hd
        rw [hmc] at hd
        cases hd
    · constructor
      · constructor
        · intro _
          exact ⟨not_lt.mp h2, not_le.mp h1⟩
        · intro _
          simp only [mismatchCheck, hget]
          rw [if_neg (fun hc => h1 hc.2), if_neg h2]
          rfl
      · intro d hd
        have hmem : d ∈ amountMismatchDiscs s now :=
          List.mem_filterMap.mpr ⟨rec, hrec, hd⟩
        simp only [mismatchCheck, hget] at hd
        rw [if_neg (fun hc => h1 hc.2), if_neg h2] at hd
        injection hd with h
        subst h
        exact ⟨hmem, rfl, rfl, rfl, rfl⟩

/-- Filtering the synthesized orphan discrepancies by settlement id mirrors
filtering the underlying records by record id. -/
theorem orphan_filter_length (now : Time) (x : String) :
    ∀ l : List SettlementRecord,
      ((l.map (mkOrphanDisc now)).filter (fun d => d.settlementID = x)).length
        = (l.filter (fun r => r.id = x)).length := by
  intro l
  induction l with
  | nil => rfl
  | cons r t ih =>
    by_cases h : r.id = x
    · simpa [mkOrphanDisc, h] using ih
    · simpa [mkOrphanDisc, h] using ih

/-- In a list of settlement records with pairwise distinct ids, exactly one
element carries the id of any member. -/
theorem count_id_eq_one :
    ∀ (l : List SettlementRecord) (rec : SettlementRecord),
      rec ∈ l → (l.map (fun r => r.id)).Nodup →
      (l.filter (fun r => r.id = rec.id)).length = 1 := by
  intro l
  induction l with
  | nil =>
    intro rec h _
    exact absurd h (List.not_mem_nil rec)
  | cons a t ih =>
    intro rec hmem hnd
    rw [List.map_cons, List.nodup_cons] at hnd
    obtain ⟨hnotin, hndt⟩ := hnd
    rcases List.mem_cons.mp hmem with rfl | hmem2
    · have hnone : t.filter (fun r => r.id = rec.id) = [] := by
        rw [List.filter_eq_nil_iff]
        intro r hr
        simp only [decide_eq_true_eq]
        intro hid
        exact hnotin (hid ▸ List.mem_map_of_mem _ hr)
      simp [List.filter_cons, hnone]
    · have hane : ¬ (a.id = rec.id) := by
        intro hid
        exact hnotin (by rw [hid]; exact List.mem_map_of_mem _ hmem2)
      simp [List.filter_cons, hane, ih rec hmem2 hndt]

/-- Claim C8: every settlement record still unmatched after the match step
yields exactly one ORPHANED_SETTLEMENT discrepancy, with severity HIGH,
expected_usd = 0 and actual_usd = the record's usd_net_amount (all fields as
`mkOrphanDisc`); matched records yield none. -/
theorem orphaned_settlement_detection (s : Store) (now : Time)
    (rec : SettlementRecord) (hmem : rec ∈ s.records)
    (hids : (s.records.map (fun r => r.id)).Nodup) :
    (rec.wakalaTransactionID = "" →
      ((orphanedDiscs s now).filter (fun d => d.settlementID = rec.id)).length = 1 ∧
      ∀ d ∈ orphanedDiscs s now, d.settlementID = rec.id →
        d = mkOrphanDisc now rec ∧ d.type = DiscrepancyType.orphanedSettlement ∧
        d.severity = Severity.high ∧ d.expectedUSD = 0 ∧
        d.actualUSD = rec.usdNetAmount) ∧
    (rec.wakalaTransactionID ≠ "" →
      ∀ d ∈ orphanedDiscs s now, d.settlementID ≠ rec.id) := by
  have hinj : ∀ x ∈ s.records, ∀ y ∈ s.records, x.id = y.id → x = y :=
    List.inj_on_of_nodup_map hids
  have hmemOf : ∀ d ∈ orphanedDiscs s now,
      ∃ r, r ∈ s.records ∧ r.wakalaTransactionID = "" ∧ d = mkOrphanDisc now r := by
    intro d hd
    obtain ⟨r, hr, rfl⟩ := List.mem_map.mp hd
    rw [getUnmatchedRecords, List.mem_filter] at hr
    exact ⟨r, hr.1, by simpa using hr.2, rfl⟩
  constructor
  · intro hunm
    constructor
    · rw [orphanedDiscs, orphan_filter_length]
      apply count_id_eq_one
      · rw [getUnmatchedRecords, List.mem_filter]
        exact ⟨hmem, by simpa using hunm⟩
      · exact ((List.filter_sublist s.records).map (fun r => r.id)).nodup hids
    · intro d hd hsid
      obtain ⟨r, hrmem, hrunm, rfl⟩ := hmemOf d hd
      have : r.id = rec.id := hsid
      obtain rfl := hinj r hrmem rec hmem this
      exact ⟨rfl, rfl, rfl, rfl, rfl⟩
  · intro hmat d hd hsid
    obtain ⟨r, hrmem, hrunm, rfl⟩ := hmemOf d hd
    have : r.id = rec.id := hsid
    obtain rfl := hinj r hrmem rec hmem this
    exact hmat hrunm

/-! ## Frame lemmas: which parts of the store each operation leaves alone -/

/-- Inserting settlement records never touches the reports table. -/
theorem insertRecords_reports (recs : List SettlementRecord) :
    ∀ s : Store, ((insertRecords s recs).1).reports = s.reports := by
  induction recs with
  | nil => intro s; rfl
  | cons rec rest ih =>
    intro s
    rw [insertRecords]
    split
    · exact ih s
    · simpa using ih { s with records := s.records ++ [rec] }

/-- The count returned by `InsertRecords` is exactly the growth of the
records table. -/
theorem insertRecords_length (recs : List SettlementRecord) :
    ∀ s : Store, ((insertRecords s recs).1).records.length
      = s.records.length + (insertRecords s recs).2 := by
  induction recs with
  | nil => intro s; simp [insertRecords]
  | cons rec rest ih =>
    intro s
    rw [insertRecords]
    split
    · exact ih s
    · have h := ih { s with records := s.records ++ [rec] }
      simp only [List.length_append, List.length_singleton] at h
      simp only [h]
      omega

/-- Inserting discrepancies never touches the reports table. -/
theorem bulkInsertDiscs_reports (discs : List Discrepancy) :
    ∀ s : Store, ((bulkInsertDiscs s discs).1).reports = s.reports := by
  induction discs with
  | nil => intro s; rfl
  | cons d rest ih =>
    intro s
    rw [bulkInsertDiscs]
    split
    · exact ih s
    · simpa using ih { s with discrepancies := s.discrepancies ++ [d] }

/-- One match-loop iteration never touches the reports table. -/
theorem matchStep_reports (acc : Store × Nat) (rec : SettlementRecord) :
    ((matchStep acc rec).1).reports = (acc.1).reports := by
  rw [matchStep]
  split
  · rfl
  · rfl

/-- The match loop never touches the reports table. -/
theorem foldl_matchStep_reports (l : List SettlementRecord) :
    ∀ acc : Store × Nat, ((l.foldl matchStep acc).1).reports = (acc.1).reports := by
  induction l with
  | nil => intro acc; rfl
  | cons r t ih =>
    intro acc
    rw [List.foldl_cons, ih, matchStep_reports]

/-- `MatchSettlements` never touches the reports table. -/
theorem matchSettlements_reports (s : Store) :
    ((matchSettlements s).1).reports = s.reports :=
  foldl_matchStep_reports _ (s, 0)

/-- `DetectMissingSettlements` never touches the reports table. -/
theorem detectMissingSettlements_reports (s : Store) (now window : Time) :
    ((detectMissingSettlements s now window).1).reports = s.reports := by
  simp only [detectMissingSettlements]
  split
  · rfl
  · exact bulkInsertDiscs_reports _ s

/-- `DetectAmountMismatches` never touches the reports table. -/
theorem detectAmountMismatches_reports (s : Store) (now : Time) :
    ((detectAmountMismatches s now).1).reports = s.reports := by
  simp only [detectAmountMismatches]
  split
  · rfl
  · exact bulkInsertDiscs_reports _ s

/-- `DetectOrphanedSettlements` never touches the reports table. -/
theorem detectOrphanedSettlements_reports (s : Store) (now : Time) :
    ((detectOrphanedSettlements s now).1).reports = s.reports := by
  simp only [detectOrphanedSettlements]
  split
  · rfl
  · exact bulkInsertDiscs_reports _ s

/-- A full reconciliation run never touches the reports table. -/
theorem runFullReconciliation_reports (s : Store) (now window : Time) :
    ((runFullReconciliation s now window).1).reports = s.reports := by
  simp only [runFullReconciliation]
  rw [detectOrphanedSettlements_reports, detectAmountMismatches_reports,
    detectMissingSettlements_reports, matchSettlements_reports]
  rfl

/-- After any ingestion call that returns a success, a report row with the
content digest of the ingested bytes is stored. -/
theorem ingest_ok_hash_exists (hashHex : List Nat → String)
    (pA pB pC : ParserFn) (now window now0 : Time) (s s2 : Store)
    (data : List Nat) (proc fmt : String) (res : IngestResult)
    (hok : IngestReport hashHex pA pB pC (runReconOn now window) s now0 data proc fmt
      = (s2, .ok res)) :
    reportExistsByHash s2 (hashHex data) = true := by
  rw [IngestReport] at hok
  by_cases hex : reportExistsByHash s (hashHex data) = true
  · rw [if_pos hex] at hok
    injection hok with h1 h2
    subst h1
    exact hex
  · rw [if_neg hex] at hok
    split at hok
    · exact absurd (congrArg Prod.snd hok) (by simp)
    · split at hok
      · exact absurd (congrArg Prod.snd hok) (by simp)
      · rename_i parse hdisp records batchID hparse
        simp only [runReconOn] at hok
        have h1 := congrArg Prod.fst hok
        simp only at h1
        subst h1
        rw [reportExistsByHash]
        apply List.any_eq_true.mpr
        refine ⟨mkReport proc now0 (resolveBatchID now0 batchID) (hashHex data)
          records.length, ?_, by simp [mkReport]⟩
        rw [runFullReconciliation_reports]
        have hrep : ((persistReportAndRecords s proc now0 batchID (hashHex data)
            records).1).reports
            = s.reports ++ [mkReport proc now0 (resolveBatchID now0 batchID)
                (hashHex data) records.length] := by
          rw [persistReportAndRecords, insertRecords_reports]
          rfl
        rw [hrep]
        exact List.mem_append_right _ (List.mem_singleton_self _)

/-- Claim C4: once bytes have been successfully ingested (a report row with
their content digest is stored), a second `IngestReport` call on the same
bytes returns the sentinel success result with zero records ingested,
leaves the store untouched, and never invokes a parser or the reconciliation
pass (the result is the same for every parser and reconciliation
collaborator). -/
theorem ingest_idempotent (hashHex : List Nat → String)
    (parseA parseB parseC : ParserFn) (s s2 : Store) (now window now2 : Time)
    (data : List Nat) (processor format processor2 format2 : String)
    (res : IngestResult)
    (hfirst : IngestReport hashHex parseA parseB parseC (runReconOn now window)
      s now data processor format = (s2, .ok res)) :
    reportExistsByHash s2 (hashHex data) = true ∧
    ∀ (pA pB pC : ParserFn) (recon : Store → Option (Store × ReconciliationResult)),
      IngestReport hashHex pA pB pC recon s2 now2 data processor2 format2 =
        (s2, .ok alreadyIngestedResult) := by
  have hex := ingest_ok_hash_exists hashHex parseA parseB parseC now window now
    s s2 data processor format res hfirst
  exact ⟨hex, fun pA pB pC recon => by rw [IngestReport, if_pos hex]⟩

/-- Claim C4 witness: a concrete first ingestion into an empty store, then a
second call on the same bytes (digest h) with arbitrary collaborators and an
unrecognized format tag still returns the sentinel. -/
theorem ingest_idempotent_witness :
    reportExistsByHash storeAfterFirstIngest "h" = true ∧
    ∀ (pA pB pC : ParserFn) (recon : Store → Option (Store × ReconciliationResult)),
      IngestReport (fun _ => "h") pA pB pC recon storeAfterFirstIngest 7 [] "q" "nope" =
        (storeAfterFirstIngest, .ok alreadyIngestedResult) :=
  ingest_idempotent (fun _ => "h") parserOkEmpty parserOkEmpty parserOkEmpty
    ⟨[], [], [], []⟩ storeAfterFirstIngest 0 0 7 [] "p" "csv_a" "q" "nope"
    { reportID := mkReportID "p" 0, recordsIngested := 0, duplicatesSkipped := 0,
      discrepanciesDetected := 0 } (by rfl)

/-- Claim C10: the duplicate-content check runs before format validation: for
already-ingested content, `IngestReport` returns the sentinel success result
whatever the format tag or parsers; the unsupported-format error is produced
exactly for content not already ingested (with an unrecognized tag). -/
theorem duplicate_check_first (hashHex : List Nat → String)
    (parseA parseB parseC : ParserFn)
    (recon : Store → Option (Store × ReconciliationResult))
    (s : Store) (now : Time) (data : List Nat) (processor format : String) :
    (reportExistsByHash s (hashHex data) = true →
      IngestReport hashHex parseA parseB parseC recon s now data processor format
        = (s, .ok alreadyIngestedResult)) ∧
    (format ≠ "csv_a" → format ≠ "json_b" → format ≠ "csv_c" →
      reportExistsByHash s (hashHex data) = false →
      IngestReport hashHex parseA parseB parseC recon s now data processor format
        = (s, .error ("unsupported format: " ++ format))) := by
  constructor
  · intro hex
    rw [IngestReport, if_pos hex]
  · intro h1 h2 h3 hex
    rw [IngestReport, if_neg (by simp [hex]), dispatchParser,
      if_neg h1, if_neg h2, if_neg h3]

/-- Claim C7: when parsing and persistence succeed but the triggered
reconciliation run fails, `IngestReport` still returns a success whose
discrepancy count is 0, whose records_ingested is the newly-inserted count
(exactly the growth of the records table) and whose duplicates_skipped is
parsed minus inserted. -/
theorem reconciliation_failure_nonfatal (hashHex : List Nat → String)
    (parseA parseB parseC p : ParserFn) (s : Store) (now : Time)
    (data : List Nat) (processor format : String)
    (records : List SettlementRecord) (batchID : String)
    (hnew : reportExistsByHash s (hashHex data) = false)
    (hdisp : dispatchParser parseA parseB parseC format = some p)
    (hparse : p data (mkReportID processor now) = .ok (records, batchID)) :
    IngestReport hashHex parseA parseB parseC (fun _ => none) s now data processor format
      = ((persistReportAndRecords s processor now batchID (hashHex data) records).1,
          .ok { reportID := mkReportID processor now
                recordsIngested :=
                  (persistReportAndRecords s processor now batchID (hashHex data) records).2
                duplicatesSkipped := records.length -
                  (persistReportAndRecords s processor now batchID (hashHex data) records).2
                discrepanciesDetected := 0 }) ∧
    ((persistReportAndRecords s processor now batchID (hashHex data) records).1).records.length
      = s.records.length +
        (persistReportAndRecords s processor now batchID (hashHex data) records).2 := by
  constructor
  · rw [IngestReport, if_neg (by simp [hnew])]
    simp only [hdisp, hparse]
  · rw [persistReportAndRecords, insertRecords_length]
    rfl

/-- Claim C7 witness: a concrete ingestion into an empty store with a parser
that succeeds and a reconciliation pass that fails still returns a success
with zero discrepancies. -/
theorem reconciliation_failure_nonfatal_witness :
    IngestReport (fun _ => "h") parserOkEmpty parserOkEmpty parserOkEmpty (fun _ => none)
        ⟨[], [], [], []⟩ 0 [] "p" "csv_a"
      = (storeAfterFirstIngest,
          .ok { reportID := mkReportID "p" 0, recordsIngested := 0,
                duplicatesSkipped := 0, discrepanciesDetected := 0 }) ∧
    storeAfterFirstIngest.records.length = (Store.mk [] [] [] []).records.length + 0 :=
  reconciliation_failure_nonfatal (fun _ => "h") parserOkEmpty parserOkEmpty parserOkEmpty
    parserOkEmpty ⟨[], [], [], []⟩ 0 [] "p" "csv_a" [] "B-1"
    (by rfl) (by rfl) (by rfl)

/-- Claim C1 witness: in a concrete store, the matched record with gross
110 USD against a 100 USD transaction passes both tolerance gates and emits
with expected 100, actual 110 and difference +10. -/
theorem amount_mismatch_tolerance_witness :
    ((mismatchCheck storeMixed 3 rec110).isSome ↔
      (0.10 ≤ |rec110.usdGrossAmount - txn100.usdAmount| ∧
        |rec110.usdGrossAmount - txn100.usdAmount| / txn100.usdAmount > 0.005)) ∧
    (∀ d, mismatchCheck storeMixed 3 rec110 = some d →
      d ∈ amountMismatchDiscs storeMixed 3 ∧
      d.type = DiscrepancyType.amountMismatch ∧
      d.expectedUSD = txn100.usdAmount ∧
      d.actualUSD = rec110.usdGrossAmount ∧
      d.differenceUSD = rec110.usdGrossAmount - txn100.usdAmount) :=
  amount_mismatch_tolerance storeMixed 3 rec110 txn100
    (by decide) (by rfl) (by norm_num [txn100])

/-- Claim C8 witness: in the same concrete store, the unmatched record yields
exactly one orphan discrepancy with the required fields, and the matched
record yields none. -/
theorem orphaned_settlement_detection_witness :
    (recOrphan.wakalaTransactionID = "" →
      ((orphanedDiscs storeMixed 3).filter
          (fun d => d.settlementID = recOrphan.id)).length = 1 ∧
      ∀ d ∈ orphanedDiscs storeMixed 3, d.settlementID = recOrphan.id →
        d = mkOrphanDisc 3 recOrphan ∧ d.type = DiscrepancyType.orphanedSettlement ∧
        d.severity = Severity.high ∧ d.expectedUSD = 0 ∧
        d.actualUSD = recOrphan.usdNetAmount) ∧
    (recOrphan.wakalaTransactionID ≠ "" →
      ∀ d ∈ orphanedDiscs storeMixed 3, d.settlementID ≠ recOrphan.id) :=
  orphaned_settlement_detection storeMixed 3 recOrphan (by decide) (by decide)

/-- A bad data row anywhere in the remaining input aborts the CapePay row
loop with an error. -/
theorem capePayRows_error_of_bad (reportID : String) (expectedFields : Nat) :
    ∀ rows : List (List String), (∃ r ∈ rows, rowBad r) →
      ∀ (lineNum : Nat) (acc : List SettlementRecord) (batchID : String),
        ∃ e, capePayRows reportID expectedFields rows lineNum acc batchID = .error e := by
  intro rows
  induction rows with
  | nil =>
    rintro ⟨r, hr, -⟩
    exact absurd hr (List.not_mem_nil r)
  | cons row rest ih =>
    rintro ⟨r, hr, hbadr⟩ lineNum acc batchID
    rcases List.mem_cons.mp hr with rfl | hrrest
    · obtain ⟨hlen, hfail⟩ := hbadr
      by_cases hfc : r.length ≠ expectedFields
      · exact ⟨"line " ++ toString lineNum ++ ": wrong number of fields",
          by rw [capePayRows, if_pos hfc]⟩
      rw [capePayRows, if_neg hfc, if_neg (by omega)]
      rcases hfail with h3 | h4 | h5 | hdate
      · exact ⟨"line " ++ toString lineNum ++ " amount", by simp only [h3]⟩
      · cases h3 : parseFloat? (trimSpace (r.getD 3 "")) with
        | none => exact ⟨"line " ++ toString lineNum ++ " amount", by simp only [h3]⟩
        | some a => exact ⟨"line " ++ toString lineNum ++ " deductions", by simp only [h3, h4]⟩
      · cases h3 : parseFloat? (trimSpace (r.getD 3 "")) with
        | none => exact ⟨"line " ++ toString lineNum ++ " amount", by simp only [h3]⟩
        | some a =>
          cases h4 : parseFloat? (trimSpace (r.getD 4 "")) with
          | none => exact ⟨"line " ++ toString lineNum ++ " deductions", by simp only [h3, h4]⟩
          | some b => exact ⟨"line " ++ toString lineNum ++ " net", by simp only [h3, h4, h5]⟩
      · cases h3 : parseFloat? (trimSpace (r.getD 3 "")) with
        | none => exact ⟨"line " ++ toString lineNum ++ " amount", by simp only [h3]⟩
        | some a =>
          cases h4 : parseFloat? (trimSpace (r.getD 4 "")) with
          | none => exact ⟨"line " ++ toString lineNum ++ " deductions", by simp only [h3, h4]⟩
          | some b =>
            cases h5 : parseFloat? (trimSpace (r.getD 5 "")) with
            | none => exact ⟨"line " ++ toString lineNum ++ " net", by simp only [h3, h4, h5]⟩
            | some c =>
              exact ⟨"line " ++ toString lineNum ++ " date", by simp only [h3, h4, h5, hdate]⟩
    · by_cases hfc : row.length ≠ expectedFields
      · exact ⟨"line " ++ toString lineNum ++ ": wrong number of fields",
          by rw [capePayRows, if_pos hfc]⟩
      by_cases hlen : row.length < 7
      · rw [capePayRows, if_neg hfc, if_pos hlen]
        exact ih ⟨r, hrrest, hbadr⟩ (lineNum + 1) acc batchID
      · rw [capePayRows, if_neg hfc, if_neg hlen]
        cases h3 : parseFloat? (trimSpace (row.getD 3 "")) with
        | none => exact ⟨"line " ++ toString lineNum ++ " amount", by simp only [h3]⟩
        | some amount =>
          cases h4 : parseFloat? (trimSpace (row.getD 4 "")) with
          | none => exact ⟨"line " ++ toString lineNum ++ " deductions", by simp only [h3, h4]⟩
          | some deductions =>
            cases h5 : parseFloat? (trimSpace (row.getD 5 "")) with
            | none => exact ⟨"line " ++ toString lineNum ++ " net", by simp only [h3, h4, h5]⟩
            | some net =>
              cases hdate : parseDateWithFallback (trimSpace (row.getD 2 "")) with
              | none =>
                exact ⟨"line " ++ toString lineNum ++ " date", by simp only [h3, h4, h5, hdate]⟩
              | some sd =>
                have hz : ∀ a : ℚ, ToUSD a "ZAR" = Except.ok (a / 18.6) := fun a => rfl
                simp only [h3, h4, h5, hdate, hz]
                exact ih ⟨r, hrrest, hbadr⟩ _ _ _

/-- A bad data row anywhere in the remaining input aborts the AfriPay row
loop with an error. -/
theorem afriPayRows_error_of_bad (reportID : String) (expectedFields : Nat) :
    ∀ rows : List (List String), (∃ r ∈ rows, rowBad r) →
      ∀ (lineNum : Nat) (acc : List SettlementRecord) (batchID : String),
        ∃ e, afriPayRows reportID expectedFields rows lineNum acc batchID = .error e := by
  intro rows
  induction rows with
  | nil =>
    rintro ⟨r, hr, -⟩
    exact absurd hr (List.not_mem_nil r)
  | cons row rest ih =>
    rintro ⟨r, hr, hbadr⟩ lineNum acc batchID
    rcases List.mem_cons.mp hr with rfl | hrrest
    · obtain ⟨hlen, hfail⟩ := hbadr
      by_cases hfc : r.length ≠ expectedFields
      · exact ⟨"line " ++ toString lineNum ++ ": wrong number of fields",
          by rw [afriPayRows, if_pos hfc]⟩
      rw [afriPayRows, if_neg hfc, if_neg (by omega)]
      rcases hfail with h3 | h4 | h5 | hdate
      · exact ⟨"line " ++ toString lineNum ++ " gross", by simp only [h3]⟩
      · cases h3 : parseFloat? (trimSpace (r.getD 3 "")) with
        | none => exact ⟨"line " ++ toString lineNum ++ " gross", by simp only [h3]⟩
        | some a => exact ⟨"line " ++ toString lineNum ++ " fee", by simp only [h3, h4]⟩
      · cases h3 : parseFloat? (trimSpace (r.getD 3 "")) with
        | none => exact ⟨"line " ++ toString lineNum ++ " gross", by simp only [h3]⟩
        | some a =>
          cases h4 : parseFloat? (trimSpace (r.getD 4 "")) with
          | none => exact ⟨"line " ++ toString lineNum ++ " fee", by simp only [h3, h4]⟩
          | some b => exact ⟨"line " ++ toString lineNum ++ " net", by simp only [h3, h4, h5]⟩
      · cases h3 : parseFloat? (trimSpace (r.getD 3 "")) with
        | none => exact ⟨"line " ++ toString lineNum ++ " gross", by simp only [h3]⟩
        | some a =>
          cases h4 : parseFloat? (trimSpace (r.getD 4 "")) with
          | none => exact ⟨"line " ++ toString lineNum ++ " fee", by simp only [h3, h4]⟩
          | some b =>
            cases h5 : parseFloat? (trimSpace (r.getD 5 "")) with
            | none => exact ⟨"line " ++ toString lineNum ++ " net", by simp only [h3, h4, h5]⟩
            | some c =>
              exact ⟨"line " ++ toString lineNum ++ " date", by simp only [h3, h4, h5, hdate]⟩
    · by_cases hfc : row.length ≠ expectedFields
      · exact ⟨"line " ++ toString lineNum ++ ": wrong number of fields",
          by rw [afriPayRows, if_pos hfc]⟩
      by_cases hlen : row.length < 7
      · rw [afriPayRows, if_neg hfc, if_pos hlen]
        exact ih ⟨r, hrrest, hbadr⟩ (lineNum + 1) acc batchID
      · rw [afriPayRows, if_neg hfc, if_neg hlen]
        cases h3 : parseFloat? (trimSpace (row.getD 3 "")) with
        | none => exact ⟨"line " ++ toString lineNum ++ " gross", by simp only [h3]⟩
        | some gross =>
          cases h4 : parseFloat? (trimSpace (row.getD 4 "")) with
          | none => exact ⟨"line " ++ toString lineNum ++ " fee", by simp only [h3, h4]⟩
          | some fee =>
            cases h5 : parseFloat? (trimSpace (row.getD 5 "")) with
            | none => exact ⟨"line " ++ toString lineNum ++ " net", by simp only [h3, h4, h5]⟩
            | some net =>
              cases hdate : parseDateWithFallback (trimSpace (row.getD 2 "")) with
              | none =>
                exact ⟨"line " ++ toString lineNum ++ " date", by simp only [h3, h4, h5, hdate]⟩
              | some sd =>
                have hz : ∀ a : ℚ, ToUSD a "KES" = Except.ok (a / 129.5) := fun a => rfl
                simp only [h3, h4, h5, hdate, hz]
                exact ih ⟨r, hrrest, hbadr⟩ _ _ _

/-- Claim C6 (code bug): the csv reader's field-count enforcement (default
`FieldsPerRecord = 0`, fixed by the 7-field header) makes `reader.Read` fail
on a 1-field data row, and both parsers treat that error as fatal — so the
whole parse aborts with an error and no records, instead of silently
skipping the short row as the claim (and the spec's preserved-tradeoff
sentence, and the parsers' own dead `len(row) < 7` branch) demands. The same
file without the short row parses successfully, and a row whose numeric
field does not parse also aborts the whole parse, as the claim's second half
states. -/
theorem csv_short_row_aborts_parse :
    ParseCapePayCSV
        [["TXREF", "MERCHANT", "SETTLE_DATE", "AMOUNT_ZAR", "DEDUCTIONS_ZAR",
            "NET_ZAR", "BATCH"],
          ["x"],
          ["T1", "M1", "2024-01-15", "100.50", "2.00", "98.50", "B1"]] "R"
      = .error "line 2: wrong number of fields" ∧
    ParseAfriPayCSV
        [["transaction_id", "merchant_ref", "settlement_date", "gross_amount_kes",
            "fee_kes", "net_kes", "batch_id"],
          ["x"],
          ["T1", "M1", "2024-01-15", "100.50", "2.00", "98.50", "B1"]] "R"
      = .error "line 2: wrong number of fields" ∧
    (∃ recs batch, ParseCapePayCSV
        [["TXREF", "MERCHANT", "SETTLE_DATE", "AMOUNT_ZAR", "DEDUCTIONS_ZAR",
            "NET_ZAR", "BATCH"],
          ["T1", "M1", "2024-01-15", "100.50", "2.00", "98.50", "B1"]] "R"
      = .ok (recs, batch) ∧ recs.length = 1) ∧
    (∃ recs batch, ParseAfriPayCSV
        [["transaction_id", "merchant_ref", "settlement_date", "gross_amount_kes",
            "fee_kes", "net_kes", "batch_id"],
          ["T1", "M1", "2024-01-15", "100.50", "2.00", "98.50", "B1"]] "R"
      = .ok (recs, batch) ∧ recs.length = 1) ∧
    (∃ e, ParseCapePayCSV
        [["TXREF", "MERCHANT", "SETTLE_DATE", "AMOUNT_ZAR", "DEDUCTIONS_ZAR",
            "NET_ZAR", "BATCH"],
          ["T1", "M1", "2024-01-15", "xx", "2.00", "98.50", "B1"]] "R"
      = .error e) ∧
    (∃ e, ParseAfriPayCSV
        [["transaction_id", "merchant_ref", "settlement_date", "gross_amount_kes",
            "fee_kes", "net_kes", "batch_id"],
          ["T1", "M1", "2024-01-15", "xx", "2.00", "98.50", "B1"]] "R"
      = .error e) :=
  ⟨rfl, rfl, ⟨_, _, rfl, rfl⟩, ⟨_, _, rfl, rfl⟩, ⟨_, rfl⟩, ⟨_, rfl⟩⟩

end Wakala
